import Mathlib

/-!
Verification of the attribute-resolution and authorization-decision layer of
kube-rbac-proxy, shallowly embedded from `pkg/authz/auth.go` and
`pkg/proxy/proxy.go`.

Conventions of the embedding:
* Go `nil` pointers and `nil` slices become `Option`;
* Go `map[string]struct{}` sets become duplicate-free `List String` values built
  by insertion order (`mkTargetsSet`);
* Go `(value, error)` returns become `Except String` values carrying the exact
  `fmt.Errorf` message of the source.
-/

namespace Authz

/-- Attribute-name constant `Namespace` from `pkg/authz/auth.go`. -/
def Namespace : String := "namespace"

/-- Attribute-name constant `ApiGroup` from `pkg/authz/auth.go`. -/
def ApiGroup : String := "apiGroup"

/-- Attribute-name constant `APIVersion` from `pkg/authz/auth.go`. -/
def APIVersion : String := "apiVersion"

/-- Attribute-name constant `Resource` from `pkg/authz/auth.go`. -/
def Resource : String := "resource"

/-- Attribute-name constant `Subresource` from `pkg/authz/auth.go`. -/
def Subresource : String := "subresource"

/-- Attribute-name constant `Name` from `pkg/authz/auth.go`. -/
def Name : String := "name"

/-- `QueryParameterRewriteConfig` from `pkg/authz/auth.go`: which URL query
parameter rewrites a SubjectAccessReview.  `RewriteTargets = none` models a
`nil` Go slice (list omitted), `some l` a present list; `rewriteTargetsSet`
models the `map[string]struct{}` lookup set as a duplicate-free list (a Go
`nil` map and an empty map coincide in this model). -/
structure QueryParameterRewriteConfig where
  Name : String
  RewriteTargets : Option (List String)
  rewriteTargetsSet : List String
deriving Repr, DecidableEq

/-- `HTTPHeaderRewriteConfig` from `pkg/authz/auth.go`: which HTTP header
rewrites a SubjectAccessReview; field conventions as in
`QueryParameterRewriteConfig`. -/
structure HTTPHeaderRewriteConfig where
  Name : String
  RewriteTargets : Option (List String)
  rewriteTargetsSet : List String
deriving Repr, DecidableEq

/-- `SubjectAccessReviewRewrites` from `pkg/authz/auth.go`; each field is an
optional pointer in the source. -/
structure SubjectAccessReviewRewrites where
  ByQueryParameter : Option QueryParameterRewriteConfig
  ByHTTPHeader : Option HTTPHeaderRewriteConfig
deriving Repr, DecidableEq

/-- `ResourceAttributes` from `pkg/authz/auth.go`: the six-field resource
attribute template. -/
structure ResourceAttributes where
  Namespace : String
  APIGroup : String
  APIVersion : String
  Resource : String
  Subresource : String
  Name : String
deriving Repr, DecidableEq

/-- `Config` from `pkg/authz/auth.go`. -/
structure Config where
  Rewrites : Option SubjectAccessReviewRewrites
  ResourceAttributes : Option Authz.ResourceAttributes
  ResourceAttributesFile : String
deriving Repr, DecidableEq

/-- The `allResourceAttributesNames` slice of `InitConfig`. -/
def allResourceAttributesNames : List String :=
  [Namespace, ApiGroup, APIVersion, Resource, Subresource, Name]

/-- Insertion into the model of a Go `map[string]struct{}`: adding a key that
is already present leaves the map unchanged. -/
def setInsert (s : List String) (v : String) : List String :=
  if v ∈ s then s else s ++ [v]

/-- Building a `map[string]struct{}` from a slice by inserting every element,
as the `for … range` loops of `InitConfig` do. -/
def mkTargetsSet (l : List String) : List String :=
  l.foldl setInsert []

/-- Error message of `InitConfig` when both rewrite rules are present but a
rewriteTargets list is missing or empty. -/
def missingTargetsMsg : String :=
  "both query param and http header rewrites are specified but rewriteTargets are missing"

/-- Error message of `InitConfig` when the two rewriteTargets sets intersect
(the typo "paramas" is the source's). -/
def mutuallyExclusiveMsg : String :=
  "to avoid ambiguity http header and query paramas rewriteTargets must be mutually exclusive"

/-- The defaulting block of `InitConfig` (auth.go): if exactly one rewrite rule
is specified and its rewriteTargets list is nil, default it to all six
attribute names. -/
def defaultRewriteTargets (rws : SubjectAccessReviewRewrites) : SubjectAccessReviewRewrites :=
  match rws.ByQueryParameter, rws.ByHTTPHeader with
  | some q, none =>
    if q.RewriteTargets.isNone then
      { rws with ByQueryParameter := some { q with RewriteTargets := some allResourceAttributesNames } }
    else rws
  | none, some hd =>
    if hd.RewriteTargets.isNone then
      { rws with ByHTTPHeader := some { hd with RewriteTargets := some allResourceAttributesNames } }
    else rws
  | _, _ => rws

/-- The set-building block of `InitConfig` (auth.go): for each rule that is
present with a non-nil rewriteTargets list, materialize the lookup set. -/
def buildTargetsSets (rws : SubjectAccessReviewRewrites) : SubjectAccessReviewRewrites :=
  let rws1 :=
    match rws.ByQueryParameter with
    | some q =>
      match q.RewriteTargets with
      | some ts => { rws with ByQueryParameter := some { q with rewriteTargetsSet := mkTargetsSet ts } }
      | none => rws
    | none => rws
  match rws1.ByHTTPHeader with
  | some hd =>
    match hd.RewriteTargets with
    | some ts => { rws1 with ByHTTPHeader := some { hd with rewriteTargetsSet := mkTargetsSet ts } }
    | none => rws1
  | none => rws1

/-- The both-rules-present checks of `InitConfig` (auth.go): targets must be
present, non-empty, and mutually exclusive; `some msg` reports the error. -/
def checkBothPresent (rws : SubjectAccessReviewRewrites) : Option String :=
  match rws.ByQueryParameter, rws.ByHTTPHeader with
  | some q, some hd =>
    if q.RewriteTargets.isNone || hd.RewriteTargets.isNone then
      some missingTargetsMsg
    else if (q.RewriteTargets.getD []).length == 0 || (hd.RewriteTargets.getD []).length == 0 then
      some missingTargetsMsg
    else if q.rewriteTargetsSet.any (fun k => hd.rewriteTargetsSet.contains k) then
      some mutuallyExclusiveMsg
    else none
  | _, _ => none

/-- `InitConfig` from `pkg/authz/auth.go`: sets default config values and
validates the authorization configuration.  The source mutates `cfg` in place
and returns it; the embedding returns the updated record. -/
def InitConfig (cfg : Config) : Except String Config :=
  match cfg.Rewrites with
  | none => .ok cfg
  | some rws =>
    if rws.ByQueryParameter.isNone && rws.ByHTTPHeader.isNone then
      .ok cfg
    else
      let rws2 := buildTargetsSets (defaultRewriteTargets rws)
      match checkBothPresent rws2 with
      | some e => .error e
      | none => .ok { cfg with Rewrites := some rws2 }

/-- Concrete configuration with both rewrite rules present and the query rule's
target list missing. -/
def cfgMissingTargets : Config :=
  { Rewrites := some {
      ByQueryParameter := some { Name := "q", RewriteTargets := none, rewriteTargetsSet := [] },
      ByHTTPHeader := some { Name := "h", RewriteTargets := some ["name"], rewriteTargetsSet := [] } },
    ResourceAttributes := none, ResourceAttributesFile := "" }

/-- Concrete configuration with both rewrite rules present and overlapping
non-empty target lists. -/
def cfgOverlapTargets : Config :=
  { Rewrites := some {
      ByQueryParameter := some
        { Name := "q", RewriteTargets := some ["namespace"], rewriteTargetsSet := [] },
      ByHTTPHeader := some
        { Name := "h", RewriteTargets := some ["namespace"], rewriteTargetsSet := [] } },
    ResourceAttributes := none, ResourceAttributesFile := "" }

/-- Concrete configuration with both rewrite rules present and disjoint
non-empty target lists. -/
def cfgDisjointTargets : Config :=
  { Rewrites := some {
      ByQueryParameter := some
        { Name := "q", RewriteTargets := some ["namespace"], rewriteTargetsSet := [] },
      ByHTTPHeader := some
        { Name := "h", RewriteTargets := some ["name"], rewriteTargetsSet := [] } },
    ResourceAttributes := none, ResourceAttributesFile := "" }

/-- Configuration used by the C8 witness: the normalized form of the disjoint
two-rule configuration. -/
def cfgDisjointNormalized : Config :=
  { Rewrites := some {
      ByQueryParameter := some
        { Name := "q", RewriteTargets := some ["namespace"], rewriteTargetsSet := ["namespace"] },
      ByHTTPHeader := some
        { Name := "h", RewriteTargets := some ["name"], rewriteTargetsSet := ["name"] } },
    ResourceAttributes := none, ResourceAttributesFile := "" }

/-- Configuration used by the C4 witness: a lone header rule with an unset
target list. -/
def witnessHeaderOnlyCfg : Config :=
  { Rewrites := some
      { ByQueryParameter := none,
        ByHTTPHeader := some { Name := "X-Proj", RewriteTargets := none, rewriteTargetsSet := [] } },
    ResourceAttributes := none, ResourceAttributesFile := "" }

end Authz

namespace Proxy

/-- The part of the `user.Info` identity used by `pkg/proxy/proxy.go`
(`GetName`, `GetGroups`). -/
structure UserInfo where
  name : String
  groups : List String
deriving Repr, DecidableEq

/-- `authorizer.AttributesRecord` as populated by `GetRequestAttributes`
(proxy.go); `Path` stays at the Go zero value `""` for resource requests. -/
structure AttributesRecord where
  User : UserInfo
  Verb : String
  Namespace : String
  APIGroup : String
  APIVersion : String
  Resource : String
  Subresource : String
  Name : String
  ResourceRequest : Bool
  Path : String
deriving Repr, DecidableEq

/-- The part of an `http.Request` read by `GetRequestAttributes`: method, URL
path, parsed query pairs in arrival order, and header pairs in arrival
order. -/
structure Request where
  method : String
  path : String
  query : List (String × String)
  headers : List (String × String)
deriving Repr, DecidableEq

/-- `r.URL.Query()[name]`: the values of query parameter `name` in arrival
order (empty list when the parameter is absent). -/
def queryValues (r : Request) (name : String) : List String :=
  (r.query.filter (fun p => p.1 == name)).map (fun p => p.2)

/-- `r.Header.Get(name)`: the first value of header `name`, or `""` when the
header is absent. -/
def headerGet (r : Request) (name : String) : String :=
  match r.headers.find? (fun p => p.1 == name) with
  | some p => p.2
  | none => ""

/-- Modelled from the spec: the tag of a `RewriteSource` ("RewriteSource-kind",
spec section 3).  The source's `authz.RewriteValueSource` constants
(`RewriteValueSourceQueryParams`, `RewriteValueSourceHTTPHeader`) are declared
in repository code that is not under `src/`; `proxy.go` only compares values of
this type for equality. -/
inductive RewriteValueSource
  | queryParams
  | httpHeader
deriving Repr, DecidableEq

/-- `rewriteParameter` from `pkg/proxy/proxy.go`: one captured value together
with the kind of source it came from. -/
structure rewriteParameter where
  value : String
  source : RewriteValueSource
deriving Repr, DecidableEq

/-- The method switch at the top of `GetRequestAttributes` (proxy.go): map the
HTTP method to an apiserver verb, defaulting to `""`. -/
def apiVerbOf (method : String) : String :=
  if method == "POST" then "create"
  else if method == "GET" then "get"
  else if method == "PUT" then "update"
  else if method == "PATCH" then "patch"
  else if method == "DELETE" then "delete"
  else ""

/-- The parameter-collection block of `GetRequestAttributes` (proxy.go): all
values of the configured query parameter in arrival order, then the single
`Header.Get` value of the configured header when it is non-empty. -/
def collectRewriteParameters (rws : Authz.SubjectAccessReviewRewrites) (r : Request) :
    List rewriteParameter :=
  let ps :=
    match rws.ByQueryParameter with
    | some q =>
      if q.Name ≠ "" then
        (queryValues r q.Name).map (fun v => { value := v, source := RewriteValueSource.queryParams })
      else []
    | none => []
  let hs :=
    match rws.ByHTTPHeader with
    | some hd =>
      if hd.Name ≠ "" then
        let param := headerGet r hd.Name
        if param ≠ "" then [{ value := param, source := RewriteValueSource.httpHeader }] else []
      else []
    | none => []
  ps ++ hs

/-- The per-parameter target-set selection of `GetRequestAttributes`
(proxy.go): start from an empty slice and take the rewriteTargets of the rule
matching the parameter's source kind.  The source dereferences the rule
pointer, which is always non-nil there because parameters are only collected
from configured sources; the `none` arms keep the initial empty slice. -/
def targetsFor (rws : Authz.SubjectAccessReviewRewrites) (s : RewriteValueSource) : List String :=
  if s == RewriteValueSource.queryParams then
    match rws.ByQueryParameter with
    | some q => q.RewriteTargets.getD []
    | none => []
  else if s == RewriteValueSource.httpHeader then
    match rws.ByHTTPHeader with
    | some hd => hd.RewriteTargets.getD []
    | none => []
  else []

/-- `templateWithValue` from `pkg/proxy/proxy.go`, restricted to template
strings the external `text/template` collaborator parses successfully: the
`engine` argument abstracts a successful `Parse` followed by `Execute`,
returning the rendered output together with an optional error whose component
the source discards.  This happy-path model cannot represent the parse-failure
path, on which the source does not return a string at all; that path is
modeled by `templateWithValueFallible` below. -/
def templateWithValue (engine : String → String → String × Option String)
    (attrName templateString value : String) (rewriteTargets : List String) : String :=
  let rewrite := rewriteTargets.foldl (fun acc t => if t == attrName then true else acc) false
  if !rewrite then templateString
  else (engine templateString value).1

/-- `templateWithValue` from `pkg/proxy/proxy.go` with the external
`text/template` collaborator modeled faithfully as a pair: `parseT` returns the
parsed template, or `none` for the nil template that Go's `Parse` leaves behind
when it reports the (discarded) parse error; `executeT` renders a parsed
template against the captured value, returning output and an optional
(discarded) render error.  Calling `Execute` on the nil template re-panics a
runtime nil-pointer error instead of returning, modeled by a `none` result. -/
def templateWithValueFallible {Tmpl : Type}
    (parseT : String → Option Tmpl) (executeT : Tmpl → String → String × Option String)
    (attrName templateString value : String) (rewriteTargets : List String) : Option String :=
  let rewrite := rewriteTargets.foldl (fun acc t => if t == attrName then true else acc) false
  if !rewrite then some templateString
  else
    match parseT templateString with
    | none => none
    | some t => some (executeT t value).1

/-- Parse collaborator used by the C9 witness: fails on the concrete malformed
template (an unclosed placeholder), parses any other string to itself. -/
def witnessParse (templateString : String) : Option String :=
  if templateString = "\x7b\x7b.Value" then none else some templateString

/-- Execute collaborator used by the C9 witness: renders template then value
and reports a render error for the source to discard. -/
def witnessExecute (t v : String) : String × Option String :=
  (t ++ v, some "render failed")

/-- The loop body of the rewrite branch of `GetRequestAttributes` (proxy.go):
one `AttributesRecord` built by rewriting each of the six template fields
with the captured value against the given target set. -/
def rewrittenAttrs (engine : String → String → String × Option String)
    (u : UserInfo) (apiVerb : String) (ra : Authz.ResourceAttributes)
    (value : String) (rewriteTargets : List String) : AttributesRecord :=
  { User := u
    Verb := apiVerb
    Namespace := templateWithValue engine Authz.Namespace ra.Namespace value rewriteTargets
    APIGroup := templateWithValue engine Authz.ApiGroup ra.APIGroup value rewriteTargets
    APIVersion := templateWithValue engine Authz.APIVersion ra.APIVersion value rewriteTargets
    Resource := templateWithValue engine Authz.Resource ra.Resource value rewriteTargets
    Subresource := templateWithValue engine Authz.Subresource ra.Subresource value rewriteTargets
    Name := templateWithValue engine Authz.Name ra.Name value rewriteTargets
    ResourceRequest := true
    Path := "" }

/-- `GetRequestAttributes` from `pkg/proxy/proxy.go`: build the ordered list of
authorization attribute records for one request. -/
def getRequestAttributes (engine : String → String → String × Option String)
    (cfg : Authz.Config) (u : UserInfo) (r : Request) : List AttributesRecord :=
  let apiVerb := apiVerbOf r.method
  match cfg.ResourceAttributes with
  | some ra =>
    match cfg.Rewrites with
    | some rws =>
      let parameters := collectRewriteParameters rws r
      if parameters.isEmpty then []
      else parameters.map (fun p => rewrittenAttrs engine u apiVerb ra p.value (targetsFor rws p.source))
    | none =>
      [{ User := u, Verb := apiVerb, Namespace := ra.Namespace, APIGroup := ra.APIGroup,
         APIVersion := ra.APIVersion, Resource := ra.Resource, Subresource := ra.Subresource,
         Name := ra.Name, ResourceRequest := true, Path := "" }]
  | none =>
    [{ User := u, Verb := apiVerb, Namespace := "", APIGroup := "", APIVersion := "",
       Resource := "", Subresource := "", Name := "", ResourceRequest := false, Path := r.path }]

/-- `authorizer.Decision` of the external authorizer collaborator. -/
inductive Decision
  | allow
  | deny
  | noOpinion
deriving Repr, DecidableEq

/-- The result triple of the `Authorize` collaborator: decision, reason and an
optional error. -/
structure AuthorizeResult where
  decision : Decision
  reason : String
  err : Option String
deriving Repr, DecidableEq

/-- Outcome of Handle's authorization loop (proxy.go): all sets allowed, an
internal authorization error (HTTP 500), or a forbidden response (HTTP 403). -/
inductive GateDecision
  | allowed
  | authorizationError
  | forbidden
deriving Repr, DecidableEq

/-- The HTTP status code Handle writes for a failing loop outcome
(`http.StatusInternalServerError`, `http.StatusForbidden`). -/
def statusCodeOf : GateDecision → Option Nat
  | GateDecision.allowed => none
  | GateDecision.authorizationError => some 500
  | GateDecision.forbidden => some 403

/-- The authorization loop of `Handle` (proxy.go): evaluate the attribute
records strictly in order against the `authorize` collaborator, aborting on the
first error (500) or non-allow decision (403).  The second component records
the attribute records actually passed to the collaborator, in call order. -/
def handleAuthorize (authorize : AttributesRecord → AuthorizeResult) :
    List AttributesRecord → GateDecision × List AttributesRecord
  | [] => (GateDecision.allowed, [])
  | attrs :: rest =>
    let res := authorize attrs
    if res.err.isSome then (GateDecision.authorizationError, [attrs])
    else if res.decision ≠ Decision.allow then (GateDecision.forbidden, [attrs])
    else
      let tail := handleAuthorize authorize rest
      (tail.1, attrs :: tail.2)

/-- Attribute record used by the C1 witness: a resource request on namespace
`n`. -/
def witnessAttrs (n : String) : AttributesRecord :=
  { User := { name := "alice", groups := ["dev"] }, Verb := "get", Namespace := n,
    APIGroup := "", APIVersion := "", Resource := "pods", Subresource := "", Name := "",
    ResourceRequest := true, Path := "" }

/-- Collaborator used by the C1 witness: allows namespace `a`, denies
everything else. -/
def witnessAuthorize (a : AttributesRecord) : AuthorizeResult :=
  if a.Namespace == "a" then { decision := Decision.allow, reason := "", err := none }
  else { decision := Decision.deny, reason := "namespace not allowed", err := none }

/-- Configuration used by the C3 witness: a template with a query-parameter
rewrite rule. -/
def witnessCfg : Authz.Config :=
  { Rewrites := some
      { ByQueryParameter := some
          { Name := "ns", RewriteTargets := some ["namespace"], rewriteTargetsSet := ["namespace"] },
        ByHTTPHeader := none },
    ResourceAttributes := some
      { Namespace := "tmpl-ns", APIGroup := "", APIVersion := "", Resource := "pods",
        Subresource := "", Name := "" },
    ResourceAttributesFile := "" }

/-- Rendering engine used by the witnesses: substitution is template then
value, never an error. -/
def witnessEngine : String → String → String × Option String :=
  fun t v => (t ++ v, none)

end Proxy

namespace Authz

/-- Membership in the set model after one insertion. -/
theorem mem_setInsert (a v : String) (s : List String) :
    a ∈ setInsert s v ↔ a ∈ s ∨ a = v := by
  unfold setInsert
  split
  · constructor
    · exact Or.inl
    · rintro (h | rfl)
      · exact h
      · assumption
  · simp [List.mem_append]

/-- Membership after inserting a whole list. -/
theorem mem_foldl_setInsert (a : String) (l s : List String) :
    a ∈ l.foldl setInsert s ↔ a ∈ s ∨ a ∈ l := by
  induction l generalizing s with
  | nil => simp
  | cons x xs ih =>
    rw [List.foldl_cons, ih, mem_setInsert]
    simp [or_assoc]

/-- The materialized target set has the same members as the target list. -/
theorem mem_mkTargetsSet (a : String) (l : List String) :
    a ∈ mkTargetsSet l ↔ a ∈ l := by
  simp [mkTargetsSet, mem_foldl_setInsert]

/-- C4: when exactly one rewrite rule is present and its target list is unset,
InitConfig succeeds and returns the configuration with that rule's target list
defaulted to all six field names (whose materialized set again lists all six
names). -/
theorem initConfig_defaults_single_rule (cfg : Config) (rws : SubjectAccessReviewRewrites)
    (hcfg : cfg.Rewrites = some rws) :
    (∀ q, rws.ByQueryParameter = some q → rws.ByHTTPHeader = none →
      q.RewriteTargets = none →
      InitConfig cfg = Except.ok { cfg with Rewrites := some {
          ByQueryParameter := some { q with
            RewriteTargets := some allResourceAttributesNames,
            rewriteTargetsSet := mkTargetsSet allResourceAttributesNames },
          ByHTTPHeader := none } })
    ∧ (∀ hd, rws.ByHTTPHeader = some hd → rws.ByQueryParameter = none →
      hd.RewriteTargets = none →
      InitConfig cfg = Except.ok { cfg with Rewrites := some {
          ByQueryParameter := none,
          ByHTTPHeader := some { hd with
            RewriteTargets := some allResourceAttributesNames,
            rewriteTargetsSet := mkTargetsSet allResourceAttributesNames } } })
    ∧ mkTargetsSet allResourceAttributesNames = allResourceAttributesNames := by
  refine ⟨?_, ?_, by decide⟩
  · intro q hq hh ht
    obtain ⟨bq, bh⟩ := rws
    simp only at hq hh
    subst hq
    subst hh
    obtain ⟨qn, qt, qs⟩ := q
    simp only at ht
    subst ht
    simp [InitConfig, hcfg, defaultRewriteTargets, buildTargetsSets, checkBothPresent]
  · intro hd hh hq ht
    obtain ⟨bq, bh⟩ := rws
    simp only at hq hh
    subst hq
    subst hh
    obtain ⟨hn, htg, hs⟩ := hd
    simp only at ht
    subst ht
    simp [InitConfig, hcfg, defaultRewriteTargets, buildTargetsSets, checkBothPresent]

/-- C2 (amended): with both rewrite rules present, InitConfig fails with the
missing-rewriteTargets error unless both rules carry a non-empty explicit
target list, fails with the distinct mutual-exclusivity error whenever the two
non-empty target sets share a field name, and succeeds when both sets are
non-empty and disjoint. -/
theorem initConfig_both_rules (cfg : Config) (rws : SubjectAccessReviewRewrites)
    (q : QueryParameterRewriteConfig) (hd : HTTPHeaderRewriteConfig)
    (hcfg : cfg.Rewrites = some rws)
    (hq : rws.ByQueryParameter = some q) (hh : rws.ByHTTPHeader = some hd) :
    ((q.RewriteTargets = none ∨ hd.RewriteTargets = none
        ∨ q.RewriteTargets = some [] ∨ hd.RewriteTargets = some []) →
      InitConfig cfg = Except.error missingTargetsMsg)
    ∧ (∀ ql hl, q.RewriteTargets = some ql → hd.RewriteTargets = some hl →
        ql ≠ [] → hl ≠ [] →
        (((∃ x, x ∈ ql ∧ x ∈ hl) → InitConfig cfg = Except.error mutuallyExclusiveMsg)
          ∧ ((∀ x, x ∈ ql → x ∉ hl) → ∃ cfg2, InitConfig cfg = Except.ok cfg2))) := by
  obtain ⟨bq, bh⟩ := rws
  simp only at hq hh
  subst hq
  subst hh
  obtain ⟨qn, qt, qs⟩ := q
  obtain ⟨hn, ht, hs⟩ := hd
  simp only at *
  constructor
  · intro hcase
    rcases hcase with rfl | rfl | rfl | rfl
    · cases ht with
      | none => simp [InitConfig, hcfg, defaultRewriteTargets, buildTargetsSets, checkBothPresent]
      | some hl => simp [InitConfig, hcfg, defaultRewriteTargets, buildTargetsSets, checkBothPresent]
    · cases qt with
      | none => simp [InitConfig, hcfg, defaultRewriteTargets, buildTargetsSets, checkBothPresent]
      | some ql => simp [InitConfig, hcfg, defaultRewriteTargets, buildTargetsSets, checkBothPresent]
    · cases ht with
      | none => simp [InitConfig, hcfg, defaultRewriteTargets, buildTargetsSets, checkBothPresent]
      | some hl => simp [InitConfig, hcfg, defaultRewriteTargets, buildTargetsSets, checkBothPresent]
    · cases qt with
      | none => simp [InitConfig, hcfg, defaultRewriteTargets, buildTargetsSets, checkBothPresent]
      | some ql => simp [InitConfig, hcfg, defaultRewriteTargets, buildTargetsSets, checkBothPresent]
  · intro ql hl hq2 hh2 hqne hhne
    subst hq2
    subst hh2
    have hqlen : (ql.length == 0) = false :=
      beq_eq_false_iff_ne.mpr (fun h0 => hqne (List.length_eq_zero.mp h0))
    have hhlen : (hl.length == 0) = false :=
      beq_eq_false_iff_ne.mpr (fun h0 => hhne (List.length_eq_zero.mp h0))
    constructor
    · rintro ⟨x, hx1, hx2⟩
      have hoverlap : ∃ x ∈ mkTargetsSet ql, x ∈ mkTargetsSet hl :=
        ⟨x, (mem_mkTargetsSet x ql).mpr hx1, (mem_mkTargetsSet x hl).mpr hx2⟩
      simp [InitConfig, hcfg, defaultRewriteTargets, buildTargetsSets, checkBothPresent,
        hqlen, hhlen, hoverlap]
    · intro hdisj
      have hoverlap : ¬ ∃ x ∈ mkTargetsSet ql, x ∈ mkTargetsSet hl := by
        rintro ⟨x, hx1, hx2⟩
        exact hdisj x ((mem_mkTargetsSet x ql).mp hx1) ((mem_mkTargetsSet x hl).mp hx2)
      refine ⟨{ cfg with Rewrites := some {
          ByQueryParameter := some
            { Name := qn, RewriteTargets := some ql, rewriteTargetsSet := mkTargetsSet ql },
          ByHTTPHeader := some
            { Name := hn, RewriteTargets := some hl, rewriteTargetsSet := mkTargetsSet hl } } }, ?_⟩
      simp [InitConfig, hcfg, defaultRewriteTargets, buildTargetsSets, checkBothPresent,
        hqlen, hhlen, hoverlap]

/-- C2 counterexample: the overlapping-target-sets failure does not carry the
same error as the missing-target-list failure — the two concrete configs fail
with two different error values. -/
theorem initConfig_same_error_counterexample :
    InitConfig cfgMissingTargets = Except.error missingTargetsMsg
    ∧ InitConfig cfgOverlapTargets = Except.error mutuallyExclusiveMsg
    ∧ missingTargetsMsg ≠ mutuallyExclusiveMsg := by
  refine ⟨rfl, rfl, by decide⟩

/-- C2 witness: the overlap config fails with the mutual-exclusivity error and
the disjoint config validates successfully. -/
theorem initConfig_both_rules_witness :
    InitConfig cfgOverlapTargets = Except.error mutuallyExclusiveMsg
    ∧ ∃ cfg2, InitConfig cfgDisjointTargets = Except.ok cfg2 :=
  ⟨((initConfig_both_rules cfgOverlapTargets
        { ByQueryParameter := some
            { Name := "q", RewriteTargets := some ["namespace"], rewriteTargetsSet := [] },
          ByHTTPHeader := some
            { Name := "h", RewriteTargets := some ["namespace"], rewriteTargetsSet := [] } }
        { Name := "q", RewriteTargets := some ["namespace"], rewriteTargetsSet := [] }
        { Name := "h", RewriteTargets := some ["namespace"], rewriteTargetsSet := [] }
        rfl rfl rfl).2 ["namespace"] ["namespace"] rfl rfl (by decide) (by decide)).1
      ⟨"namespace", by decide, by decide⟩,
   ((initConfig_both_rules cfgDisjointTargets
        { ByQueryParameter := some
            { Name := "q", RewriteTargets := some ["namespace"], rewriteTargetsSet := [] },
          ByHTTPHeader := some
            { Name := "h", RewriteTargets := some ["name"], rewriteTargetsSet := [] } }
        { Name := "q", RewriteTargets := some ["namespace"], rewriteTargetsSet := [] }
        { Name := "h", RewriteTargets := some ["name"], rewriteTargetsSet := [] }
        rfl rfl rfl).2 ["namespace"] ["name"] rfl rfl (by decide) (by decide)).2
      (by decide)⟩

/-- Rebuilding the materialized lookup sets from unchanged target lists leaves
the rewrite block unchanged. -/
theorem buildTargetsSets_idem (rws : SubjectAccessReviewRewrites) :
    buildTargetsSets (buildTargetsSets rws) = buildTargetsSets rws := by
  obtain ⟨bq, bh⟩ := rws
  cases bq with
  | none =>
    cases bh with
    | none => rfl
    | some hd =>
      obtain ⟨hn, ht, hs⟩ := hd
      cases ht <;> rfl
  | some q =>
    obtain ⟨qn, qt, qs⟩ := q
    cases qt with
    | none =>
      cases bh with
      | none => rfl
      | some hd =>
        obtain ⟨hn, ht, hs⟩ := hd
        cases ht <;> rfl
    | some ts =>
      cases bh with
      | none => rfl
      | some hd =>
        obtain ⟨hn, ht, hs⟩ := hd
        cases ht <;> rfl

/-- On an already defaulted and materialized rewrite block, the defaulting
block is a no-op. -/
theorem defaultRewriteTargets_normalized (rws : SubjectAccessReviewRewrites) :
    defaultRewriteTargets (buildTargetsSets (defaultRewriteTargets rws))
      = buildTargetsSets (defaultRewriteTargets rws) := by
  obtain ⟨bq, bh⟩ := rws
  cases bq with
  | none =>
    cases bh with
    | none => rfl
    | some hd =>
      obtain ⟨hn, ht, hs⟩ := hd
      cases ht <;> rfl
  | some q =>
    obtain ⟨qn, qt, qs⟩ := q
    cases qt with
    | none =>
      cases bh with
      | none => rfl
      | some hd =>
        obtain ⟨hn, ht, hs⟩ := hd
        cases ht <;> rfl
    | some ts =>
      cases bh with
      | none => rfl
      | some hd =>
        obtain ⟨hn, ht, hs⟩ := hd
        cases ht <;> rfl

/-- Defaulting and set building preserve which rules are present. -/
theorem normalize_presence (rws : SubjectAccessReviewRewrites) :
    ((buildTargetsSets (defaultRewriteTargets rws)).ByQueryParameter.isNone
        && (buildTargetsSets (defaultRewriteTargets rws)).ByHTTPHeader.isNone)
      = (rws.ByQueryParameter.isNone && rws.ByHTTPHeader.isNone) := by
  obtain ⟨bq, bh⟩ := rws
  cases bq with
  | none =>
    cases bh with
    | none => rfl
    | some hd =>
      obtain ⟨hn, ht, hs⟩ := hd
      cases ht <;> rfl
  | some q =>
    obtain ⟨qn, qt, qs⟩ := q
    cases qt with
    | none =>
      cases bh with
      | none => rfl
      | some hd =>
        obtain ⟨hn, ht, hs⟩ := hd
        cases ht <;> rfl
    | some ts =>
      cases bh with
      | none => rfl
      | some hd =>
        obtain ⟨hn, ht, hs⟩ := hd
        cases ht <;> rfl

/-- C8: validation is idempotent — reapplying InitConfig to any configuration
it successfully normalized succeeds and returns that configuration
unchanged. -/
theorem initConfig_idempotent (cfg cfg2 : Config)
    (h : InitConfig cfg = Except.ok cfg2) :
    InitConfig cfg2 = Except.ok cfg2 := by
  cases hr : cfg.Rewrites with
  | none =>
    simp only [InitConfig, hr, Except.ok.injEq] at h
    subst h
    simp [InitConfig, hr]
  | some rws =>
    simp only [InitConfig, hr] at h
    split at h
    · next hcond =>
      simp only [Except.ok.injEq] at h
      subst h
      simp only [InitConfig, hr]
      rw [if_pos hcond]
    · next hcond =>
      split at h
      · next e hchk => exact Except.noConfusion h
      · next hchk =>
        simp only [Except.ok.injEq] at h
        subst h
        simp only [InitConfig]
        rw [normalize_presence rws]
        rw [if_neg hcond]
        rw [defaultRewriteTargets_normalized rws]
        rw [buildTargetsSets_idem (defaultRewriteTargets rws)]
        rw [hchk]

/-- C8 witness: revalidating the concrete normalized two-rule configuration
returns it unchanged. -/
theorem initConfig_idempotent_witness :
    InitConfig cfgDisjointNormalized = Except.ok cfgDisjointNormalized :=
  initConfig_idempotent cfgDisjointTargets cfgDisjointNormalized rfl

/-- C4 witness: the lone header rule with unset targets is defaulted to all six
field names and validation succeeds. -/
theorem initConfig_defaults_single_rule_witness :
    InitConfig witnessHeaderOnlyCfg = Except.ok { witnessHeaderOnlyCfg with Rewrites := some {
        ByQueryParameter := none,
        ByHTTPHeader := some
          { Name := "X-Proj", RewriteTargets := some allResourceAttributesNames,
            rewriteTargetsSet := mkTargetsSet allResourceAttributesNames } } } :=
  (initConfig_defaults_single_rule witnessHeaderOnlyCfg
      { ByQueryParameter := none,
        ByHTTPHeader := some { Name := "X-Proj", RewriteTargets := none, rewriteTargetsSet := [] } }
      rfl).2.1
    { Name := "X-Proj", RewriteTargets := none, rewriteTargetsSet := [] } rfl rfl rfl

end Authz

namespace Proxy

/-- The rewrite flag computed by the loop in `templateWithValue` equals a
disjunction over the target list. -/
theorem foldl_rewriteFlag (attrName : String) (targets : List String) (b : Bool) :
    targets.foldl (fun acc t => if t == attrName then true else acc) b
      = (b || targets.any (fun t => t == attrName)) := by
  induction targets generalizing b with
  | nil => simp
  | cons t ts ih =>
    simp only [List.foldl_cons, List.any_cons]
    rw [ih]
    by_cases h : (t == attrName) = true <;> simp [h, Bool.or_assoc]

/-- The rewrite flag of `templateWithValue` is true exactly when the attribute
name is a member of the target list. -/
theorem rewriteFlag_eq_mem (attrName : String) (targets : List String) :
    (targets.foldl (fun acc t => if t == attrName then true else acc) false = true)
      ↔ attrName ∈ targets := by
  rw [foldl_rewriteFlag]
  simp only [Bool.false_or, List.any_eq_true, beq_iff_eq, exists_eq_right]

/-- C6: templateWithValue returns the template string completely unchanged
whenever the field name is not a member of the target set, for every rendering
engine (so no parsing or substitution is attempted). -/
theorem templateWithValue_passthrough
    (engine : String → String → String × Option String)
    (attrName templateString value : String) (rewriteTargets : List String)
    (h : attrName ∉ rewriteTargets) :
    templateWithValue engine attrName templateString value rewriteTargets = templateString := by
  have hflag : (rewriteTargets.foldl (fun acc t => if t == attrName then true else acc) false)
      = false := by
    cases hf : rewriteTargets.foldl (fun acc t => if t == attrName then true else acc) false with
    | false => rfl
    | true => exact absurd ((rewriteFlag_eq_mem attrName rewriteTargets).mp hf) h
  simp only [templateWithValue]
  rw [hflag]
  simp

/-- C6 witness: a concrete pass-through, with an engine that would mangle the
template if consulted. -/
theorem templateWithValue_passthrough_witness :
    templateWithValue (fun _ v => (v, some "boom")) "name" "static-template" "x" ["namespace"]
      = "static-template" :=
  templateWithValue_passthrough (fun _ v => (v, some "boom")) "name" "static-template" "x"
    ["namespace"] (by decide)

/-- C9: for a field name in the active target set, the claimed behavior holds
only on the parsed path — when the collaborator parses the template, its render
error is silently discarded and the (possibly empty) output string returned —
but when the parse fails, the discarded parse error leaves the nil template and
executing it does not return a string at all (the source panics), contradicting
the claim that every template string totally yields a string. -/
theorem templateWithValue_parse_failure {Tmpl : Type}
    (parseT : String → Option Tmpl) (executeT : Tmpl → String → String × Option String)
    (attrName templateString value : String) (rewriteTargets : List String)
    (h : attrName ∈ rewriteTargets) :
    (parseT templateString = none →
      templateWithValueFallible parseT executeT attrName templateString value rewriteTargets
        = none)
    ∧ (∀ t, parseT templateString = some t →
      templateWithValueFallible parseT executeT attrName templateString value rewriteTargets
        = some (executeT t value).1) := by
  have hflag := (rewriteFlag_eq_mem attrName rewriteTargets).mpr h
  constructor
  · intro hp
    simp only [templateWithValueFallible]
    rw [hflag, hp]
    rfl
  · intro t hp
    simp only [templateWithValueFallible]
    rw [hflag, hp]
    rfl

/-- C9 witness: the concrete malformed template on an in-target field yields no
string (the panic path), while a parsing template yields the rendered output
with the reported render error discarded. -/
theorem templateWithValue_parse_failure_witness :
    templateWithValueFallible witnessParse witnessExecute "namespace" "\x7b\x7b.Value" "x"
        ["namespace"] = none
    ∧ templateWithValueFallible witnessParse witnessExecute "namespace" "plain" "x"
        ["namespace"] = some "plainx" :=
  ⟨(templateWithValue_parse_failure witnessParse witnessExecute "namespace" "\x7b\x7b.Value" "x"
      ["namespace"] (by decide)).1 (by decide),
   (templateWithValue_parse_failure witnessParse witnessExecute "namespace" "plain" "x"
      ["namespace"] (by decide)).2 "plain" (by decide)⟩

/-- C7: the method-to-verb mapping of GetRequestAttributes yields exactly the
five listed verbs, the empty string for every other method, and every produced
attribute record carries that verb. -/
theorem apiVerb_mapping :
    apiVerbOf "POST" = "create" ∧ apiVerbOf "GET" = "get" ∧ apiVerbOf "PUT" = "update"
    ∧ apiVerbOf "PATCH" = "patch" ∧ apiVerbOf "DELETE" = "delete"
    ∧ (∀ m, m ∉ (["POST", "GET", "PUT", "PATCH", "DELETE"] : List String) → apiVerbOf m = "")
    ∧ (∀ engine cfg u r a, a ∈ getRequestAttributes engine cfg u r
        → a.Verb = apiVerbOf r.method) := by
  refine ⟨rfl, rfl, rfl, rfl, rfl, ?_, ?_⟩
  · intro m hm
    simp only [List.mem_cons, List.not_mem_nil, or_false, not_or] at hm
    obtain ⟨h1, h2, h3, h4, h5⟩ := hm
    simp [apiVerbOf, beq_eq_false_iff_ne.mpr h1, beq_eq_false_iff_ne.mpr h2,
      beq_eq_false_iff_ne.mpr h3, beq_eq_false_iff_ne.mpr h4, beq_eq_false_iff_ne.mpr h5]
  · intro engine cfg u r a ha
    simp only [getRequestAttributes] at ha
    split at ha
    · split at ha
      · split at ha
        · exact absurd ha (List.not_mem_nil a)
        · obtain ⟨p, _, rfl⟩ := List.mem_map.mp ha
          rfl
      · rw [List.mem_singleton] at ha
        subst ha
        rfl
    · rw [List.mem_singleton] at ha
      subst ha
      rfl

/-- C7 witness: the mapping at a method outside the five-entry table. -/
theorem apiVerb_mapping_witness : apiVerbOf "OPTIONS" = "" :=
  apiVerb_mapping.2.2.2.2.2.1 "OPTIONS" (by decide)

/-- Handle's loop leaves the allowed outcome exactly when every attribute
record gets a clean allow from the collaborator. -/
theorem handleAuthorize_allowed_iff (authorize : AttributesRecord → AuthorizeResult)
    (l : List AttributesRecord) :
    (handleAuthorize authorize l).1 = GateDecision.allowed
      ↔ ∀ a ∈ l, (authorize a).err = none ∧ (authorize a).decision = Decision.allow := by
  induction l with
  | nil => simp [handleAuthorize]
  | cons attrs rest ih =>
    simp only [handleAuthorize]
    cases herr : (authorize attrs).err with
    | some e =>
      simp only [herr, Option.isSome_some, if_true]
      constructor
      · intro hcontra
        exact absurd hcontra (by simp)
      · intro hall
        have h1 := (hall attrs (List.mem_cons_self attrs rest)).1
        rw [herr] at h1
        exact Option.noConfusion h1
    | none =>
      simp only [herr, Option.isSome_none, Bool.false_eq_true, if_false]
      by_cases hd : (authorize attrs).decision = Decision.allow
      · simp only [hd, ne_eq, not_true_eq_false, if_false]
        constructor
        · intro htail a ha
          rcases List.mem_cons.mp ha with rfl | hmem
          · exact ⟨herr, hd⟩
          · exact (ih.mp htail) a hmem
        · intro hall
          exact ih.mpr (fun a ha => hall a (List.mem_cons_of_mem attrs ha))
      · simp only [ne_eq, hd, not_false_eq_true, if_true]
        constructor
        · intro hcontra
          exact absurd hcontra (by simp)
        · intro hall
          exact absurd (hall attrs (List.mem_cons_self attrs rest)).2 hd

/-- A collaborator error at the first not-clean position aborts the loop with
the authorization-error outcome and exactly the calls at positions up to and
including that position. -/
theorem handleAuthorize_abort_error (authorize : AttributesRecord → AuthorizeResult)
    (l : List AttributesRecord) (k : Nat) (hk : k < l.length)
    (hgood : ∀ j, (hj : j < l.length) → j < k →
      (authorize (l.get ⟨j, hj⟩)).err = none
        ∧ (authorize (l.get ⟨j, hj⟩)).decision = Decision.allow)
    (herr : (authorize (l.get ⟨k, hk⟩)).err.isSome) :
    handleAuthorize authorize l = (GateDecision.authorizationError, l.take (k + 1)) := by
  induction l generalizing k with
  | nil => exact absurd hk (by simp)
  | cons attrs rest ih =>
    cases k with
    | zero =>
      have herr0 : (authorize attrs).err.isSome := herr
      simp [handleAuthorize, herr0]
    | succ k =>
      have hgood0 := hgood 0 (by simp) (Nat.succ_pos k)
      have h0err : (authorize attrs).err = none := hgood0.1
      have h0dec : (authorize attrs).decision = Decision.allow := hgood0.2
      have htail := ih k (Nat.lt_of_succ_lt_succ hk)
        (fun j hj hlt => hgood (j + 1) (Nat.succ_lt_succ hj) (Nat.succ_lt_succ hlt))
        herr
      simp [handleAuthorize, h0err, h0dec, htail]

/-- A clean non-allow decision at the first not-clean position aborts the loop
with the forbidden outcome and exactly the calls at positions up to and
including that position. -/
theorem handleAuthorize_abort_forbidden (authorize : AttributesRecord → AuthorizeResult)
    (l : List AttributesRecord) (k : Nat) (hk : k < l.length)
    (hgood : ∀ j, (hj : j < l.length) → j < k →
      (authorize (l.get ⟨j, hj⟩)).err = none
        ∧ (authorize (l.get ⟨j, hj⟩)).decision = Decision.allow)
    (herr : (authorize (l.get ⟨k, hk⟩)).err = none)
    (hdec : (authorize (l.get ⟨k, hk⟩)).decision ≠ Decision.allow) :
    handleAuthorize authorize l = (GateDecision.forbidden, l.take (k + 1)) := by
  induction l generalizing k with
  | nil => exact absurd hk (by simp)
  | cons attrs rest ih =>
    cases k with
    | zero =>
      have herr0 : (authorize attrs).err = none := herr
      have hdec0 : (authorize attrs).decision ≠ Decision.allow := hdec
      simp [handleAuthorize, herr0, hdec0]
    | succ k =>
      have hgood0 := hgood 0 (by simp) (Nat.succ_pos k)
      have h0err : (authorize attrs).err = none := hgood0.1
      have h0dec : (authorize attrs).decision = Decision.allow := hgood0.2
      have htail := ih k (Nat.lt_of_succ_lt_succ hk)
        (fun j hj hlt => hgood (j + 1) (Nat.succ_lt_succ hj) (Nat.succ_lt_succ hlt))
        herr hdec
      simp [handleAuthorize, h0err, h0dec, htail]

/-- C1: Handle's authorization loop succeeds exactly when the collaborator
returns a clean allow for every attribute set, evaluated strictly in order; a
collaborator error at position k aborts immediately with the
authorization-error outcome (HTTP 500) and a clean non-allow decision at
position k aborts immediately with the forbidden outcome (HTTP 403), in both
cases with collaborator calls only at positions up to k. -/
theorem handle_decision_loop (authorize : AttributesRecord → AuthorizeResult)
    (l : List AttributesRecord) :
    ((handleAuthorize authorize l).1 = GateDecision.allowed
      ↔ ∀ a ∈ l, (authorize a).err = none ∧ (authorize a).decision = Decision.allow)
    ∧ (∀ k, (hk : k < l.length) →
        (∀ j, (hj : j < l.length) → j < k →
          (authorize (l.get ⟨j, hj⟩)).err = none
            ∧ (authorize (l.get ⟨j, hj⟩)).decision = Decision.allow) →
        (((authorize (l.get ⟨k, hk⟩)).err.isSome →
            handleAuthorize authorize l = (GateDecision.authorizationError, l.take (k + 1))
              ∧ statusCodeOf GateDecision.authorizationError = some 500)
          ∧ ((authorize (l.get ⟨k, hk⟩)).err = none →
              (authorize (l.get ⟨k, hk⟩)).decision ≠ Decision.allow →
            handleAuthorize authorize l = (GateDecision.forbidden, l.take (k + 1))
              ∧ statusCodeOf GateDecision.forbidden = some 403))) := by
  refine ⟨handleAuthorize_allowed_iff authorize l, ?_⟩
  intro k hk hgood
  exact ⟨fun herr => ⟨handleAuthorize_abort_error authorize l k hk hgood herr, rfl⟩,
    fun herr hdec => ⟨handleAuthorize_abort_forbidden authorize l k hk hgood herr hdec, rfl⟩⟩

/-- C1 witness: with three attribute sets whose second is denied, the loop
aborts with the forbidden outcome after calling the collaborator on exactly the
first two sets. -/
theorem handle_decision_loop_witness :
    handleAuthorize witnessAuthorize [witnessAttrs "a", witnessAttrs "b", witnessAttrs "c"]
      = (GateDecision.forbidden, [witnessAttrs "a", witnessAttrs "b"])
    ∧ statusCodeOf GateDecision.forbidden = some 403 :=
  ((handle_decision_loop witnessAuthorize
      [witnessAttrs "a", witnessAttrs "b", witnessAttrs "c"]).2 1 (by decide)
    (by
      intro j hj hlt
      have hj0 : j = 0 := Nat.lt_one_iff.mp hlt
      subst hj0
      exact (by decide :
        (witnessAuthorize (witnessAttrs "a")).err = none
          ∧ (witnessAuthorize (witnessAttrs "a")).decision = Decision.allow))).2
    (by decide) (by decide)

/-- C3: with no resource-attribute template, GetRequestAttributes returns
exactly one non-resource record whose path is the request path; with a template
but no rewrite configuration, exactly one resource record copying the template
verbatim; with a rewrite configuration but zero captured parameters, the empty
sequence. -/
theorem resolve_cardinality (engine : String → String → String × Option String)
    (cfg : Authz.Config) (u : UserInfo) (r : Request) :
    (cfg.ResourceAttributes = none →
      getRequestAttributes engine cfg u r
        = [{ User := u, Verb := apiVerbOf r.method, Namespace := "", APIGroup := "",
             APIVersion := "", Resource := "", Subresource := "", Name := "",
             ResourceRequest := false, Path := r.path }])
    ∧ (∀ ra, cfg.ResourceAttributes = some ra → cfg.Rewrites = none →
      getRequestAttributes engine cfg u r
        = [{ User := u, Verb := apiVerbOf r.method, Namespace := ra.Namespace,
             APIGroup := ra.APIGroup, APIVersion := ra.APIVersion, Resource := ra.Resource,
             Subresource := ra.Subresource, Name := ra.Name,
             ResourceRequest := true, Path := "" }])
    ∧ (∀ ra rws, cfg.ResourceAttributes = some ra → cfg.Rewrites = some rws →
      collectRewriteParameters rws r = [] →
      getRequestAttributes engine cfg u r = []) := by
  refine ⟨?_, ?_, ?_⟩
  · intro hra
    simp [getRequestAttributes, hra]
  · intro ra hra hrw
    simp [getRequestAttributes, hra, hrw]
  · intro ra rws hra hrw hempty
    simp [getRequestAttributes, hra, hrw, hempty]

/-- C3 witness: a request carrying no `ns` query parameter resolves to the
empty sequence under the rewrite configuration; dropping the template gives one
non-resource record. -/
theorem resolve_cardinality_witness :
    getRequestAttributes witnessEngine witnessCfg { name := "alice", groups := [] }
        { method := "GET", path := "/metrics", query := [], headers := [] } = []
    ∧ getRequestAttributes witnessEngine { witnessCfg with ResourceAttributes := none }
        { name := "alice", groups := [] }
        { method := "GET", path := "/metrics", query := [], headers := [] }
      = [{ User := { name := "alice", groups := [] }, Verb := "get", Namespace := "",
           APIGroup := "", APIVersion := "", Resource := "", Subresource := "", Name := "",
           ResourceRequest := false, Path := "/metrics" }] :=
  ⟨(resolve_cardinality witnessEngine witnessCfg { name := "alice", groups := [] }
      { method := "GET", path := "/metrics", query := [], headers := [] }).2.2
      { Namespace := "tmpl-ns", APIGroup := "", APIVersion := "", Resource := "pods",
        Subresource := "", Name := "" }
      { ByQueryParameter := some
          { Name := "ns", RewriteTargets := some ["namespace"], rewriteTargetsSet := ["namespace"] },
        ByHTTPHeader := none }
      (by decide) (by decide) (by decide),
   (resolve_cardinality witnessEngine { witnessCfg with ResourceAttributes := none }
      { name := "alice", groups := [] }
      { method := "GET", path := "/metrics", query := [], headers := [] }).1 (by decide)⟩

/-- C5: with a template, a rewrite configuration and a non-empty captured
parameter collection, GetRequestAttributes returns one rewritten record per
parameter in collection order — all query-parameter values first in arrival
order, then the single header value — and each record is rewritten with the
target set of that parameter's own source kind. -/
theorem resolve_rewrite_order (engine : String → String → String × Option String)
    (cfg : Authz.Config) (u : UserInfo) (r : Request)
    (ra : Authz.ResourceAttributes) (rws : Authz.SubjectAccessReviewRewrites)
    (hra : cfg.ResourceAttributes = some ra) (hrw : cfg.Rewrites = some rws)
    (hne : collectRewriteParameters rws r ≠ []) :
    getRequestAttributes engine cfg u r
      = (collectRewriteParameters rws r).map
          (fun p => rewrittenAttrs engine u (apiVerbOf r.method) ra p.value (targetsFor rws p.source))
    ∧ collectRewriteParameters rws r
      = (match rws.ByQueryParameter with
         | some q =>
           if q.Name ≠ "" then
             (queryValues r q.Name).map
               (fun v => { value := v, source := RewriteValueSource.queryParams })
           else []
         | none => [])
        ++ (match rws.ByHTTPHeader with
            | some hd =>
              if hd.Name ≠ "" then
                if headerGet r hd.Name ≠ "" then
                  [{ value := headerGet r hd.Name, source := RewriteValueSource.httpHeader }]
                else []
              else []
            | none => [])
    ∧ (∀ q, rws.ByQueryParameter = some q →
        targetsFor rws RewriteValueSource.queryParams = q.RewriteTargets.getD [])
    ∧ (∀ hd, rws.ByHTTPHeader = some hd →
        targetsFor rws RewriteValueSource.httpHeader = hd.RewriteTargets.getD []) := by
  refine ⟨?_, ?_, ?_, ?_⟩
  · have hempty : (collectRewriteParameters rws r).isEmpty = false := by
      cases hl : collectRewriteParameters rws r with
      | nil => exact absurd hl hne
      | cons p ps => rfl
    simp [getRequestAttributes, hra, hrw, hempty]
  · simp only [collectRewriteParameters]
  · intro q hq
    simp [targetsFor, hq]
  · intro hd hh
    simp [targetsFor, hh]

/-- C5 witness: Scenario C — query parameter `ns` repeated as `a` then `b`
yields two records rewriting only the namespace, in that order. -/
theorem resolve_rewrite_order_witness :
    getRequestAttributes witnessEngine witnessCfg { name := "alice", groups := [] }
        { method := "GET", path := "/metrics", query := [("ns", "a"), ("ns", "b")], headers := [] }
      = [rewrittenAttrs witnessEngine { name := "alice", groups := [] } "get"
           { Namespace := "tmpl-ns", APIGroup := "", APIVersion := "", Resource := "pods",
             Subresource := "", Name := "" } "a" ["namespace"],
         rewrittenAttrs witnessEngine { name := "alice", groups := [] } "get"
           { Namespace := "tmpl-ns", APIGroup := "", APIVersion := "", Resource := "pods",
             Subresource := "", Name := "" } "b" ["namespace"]] := by
  have h := (resolve_rewrite_order witnessEngine witnessCfg { name := "alice", groups := [] }
    { method := "GET", path := "/metrics", query := [("ns", "a"), ("ns", "b")], headers := [] }
    { Namespace := "tmpl-ns", APIGroup := "", APIVersion := "", Resource := "pods",
      Subresource := "", Name := "" }
    { ByQueryParameter := some
        { Name := "ns", RewriteTargets := some ["namespace"], rewriteTargetsSet := ["namespace"] },
      ByHTTPHeader := none }
    (by decide) (by decide) (by decide)).1
  rw [h]
  rfl

/-- The first value of a header in the model coincides with the head of the
list of all its values. -/
theorem find_fst_eq_filter_head (hs : List (String × String)) (name : String) :
    (match hs.find? (fun p => p.1 == name) with
     | some p => p.2
     | none => "")
      = ((hs.filter (fun p => p.1 == name)).map (fun p => p.2)).headD "" := by
  induction hs with
  | nil => rfl
  | cons x xs ih =>
    by_cases h : (x.1 == name) = true
    · simp [List.find?, List.filter, h]
    · simp only [List.find?, List.filter, h]
      exact ih

/-- Query-sourced parameters never pass a filter for header-sourced ones. -/
theorem filter_header_of_map_query (l : List String) :
    (l.map (fun v =>
        ({ value := v, source := RewriteValueSource.queryParams } : rewriteParameter))).filter
      (fun p => p.source == RewriteValueSource.httpHeader) = [] := by
  induction l with
  | nil => rfl
  | cons x xs ih =>
    simp only [List.map_cons, List.filter_cons]
    exact ih

/-- The query-parameter contribution of collectRewriteParameters never passes a
filter for header-sourced parameters. -/
theorem filter_header_of_map_query_aux (r : Request) (q : Authz.QueryParameterRewriteConfig) :
    ((if q.Name ≠ "" then
        (queryValues r q.Name).map
          (fun v => ({ value := v, source := RewriteValueSource.queryParams } : rewriteParameter))
      else []).filter (fun p => p.source == RewriteValueSource.httpHeader)) = [] := by
  by_cases hn : q.Name ≠ ""
  · rw [if_pos hn]
    exact filter_header_of_map_query (queryValues r q.Name)
  · rw [if_neg hn]
    rfl

/-- C10: with a header rewrite rule configured, the header source contributes
at most one parameter per request: nothing when `Header.Get` yields the empty
string (a first value of `""` counts as absent), and otherwise exactly one
parameter holding the first of the header's values. -/
theorem header_rewrite_single (rws : Authz.SubjectAccessReviewRewrites)
    (hd : Authz.HTTPHeaderRewriteConfig) (r : Request)
    (hh : rws.ByHTTPHeader = some hd) (hname : hd.Name ≠ "") :
    ((collectRewriteParameters rws r).filter
        (fun p => p.source == RewriteValueSource.httpHeader)
      = (if headerGet r hd.Name = "" then []
         else [{ value := headerGet r hd.Name, source := RewriteValueSource.httpHeader }]))
    ∧ ((collectRewriteParameters rws r).filter
        (fun p => p.source == RewriteValueSource.httpHeader)).length ≤ 1
    ∧ headerGet r hd.Name
        = ((r.headers.filter (fun p => p.1 == hd.Name)).map (fun p => p.2)).headD "" := by
  have hmain : (collectRewriteParameters rws r).filter
      (fun p => p.source == RewriteValueSource.httpHeader)
      = (if headerGet r hd.Name = "" then []
         else [{ value := headerGet r hd.Name, source := RewriteValueSource.httpHeader }]) := by
    cases hbq : rws.ByQueryParameter with
    | none =>
      simp only [collectRewriteParameters, hh, hbq, List.filter_append]
      by_cases hv : headerGet r hd.Name = ""
      · simp [hname, hv]
      · simp [hname, hv]
    | some q =>
      simp only [collectRewriteParameters, hh, hbq, List.filter_append,
        filter_header_of_map_query_aux r q]
      by_cases hv : headerGet r hd.Name = ""
      · simp [hname, hv]
      · simp [hname, hv]
  refine ⟨hmain, ?_, find_fst_eq_filter_head r.headers hd.Name⟩
  rw [hmain]
  by_cases hv : headerGet r hd.Name = "" <;> simp [hv]

/-- C10 witness: a header occurring twice with first value `a` contributes one
parameter carrying `a`; a header whose first value is empty contributes
nothing. -/
theorem header_rewrite_single_witness :
    ((collectRewriteParameters
        { ByQueryParameter := none,
          ByHTTPHeader := some
            { Name := "X-Proj", RewriteTargets := some ["name"], rewriteTargetsSet := ["name"] } }
        { method := "GET", path := "/", query := [],
          headers := [("X-Proj", "a"), ("X-Proj", "b")] }).filter
      (fun p => p.source == RewriteValueSource.httpHeader)
      = [{ value := "a", source := RewriteValueSource.httpHeader }])
    ∧ ((collectRewriteParameters
        { ByQueryParameter := none,
          ByHTTPHeader := some
            { Name := "X-Proj", RewriteTargets := some ["name"], rewriteTargetsSet := ["name"] } }
        { method := "GET", path := "/", query := [],
          headers := [("X-Proj", ""), ("X-Proj", "b")] }).filter
      (fun p => p.source == RewriteValueSource.httpHeader) = []) := by
  constructor
  · have h := (header_rewrite_single
      { ByQueryParameter := none,
        ByHTTPHeader := some
          { Name := "X-Proj", RewriteTargets := some ["name"], rewriteTargetsSet := ["name"] } }
      { Name := "X-Proj", RewriteTargets := some ["name"], rewriteTargetsSet := ["name"] }
      { method := "GET", path := "/", query := [],
        headers := [("X-Proj", "a"), ("X-Proj", "b")] }
      (by decide) (by decide)).1
    rw [h]
    decide
  · have h := (header_rewrite_single
      { ByQueryParameter := none,
        ByHTTPHeader := some
          { Name := "X-Proj", RewriteTargets := some ["name"], rewriteTargetsSet := ["name"] } }
      { Name := "X-Proj", RewriteTargets := some ["name"], rewriteTargetsSet := ["name"] }
      { method := "GET", path := "/", query := [],
        headers := [("X-Proj", ""), ("X-Proj", "b")] }
      (by decide) (by decide)).1
    rw [h]
    decide

end Proxy
